import Mathlib

/-!
Verification model of `src/player/animation-player.py`.

The Python program is event-driven glue over a host runtime (Isaac Sim).
We shallow-embed its pure control logic:

* `SteadyRate` (lines 66-87): wall-clock times become rationals; the two
  `time.time()` observations inside `sleep` become explicit arguments.
* `AnimationPlayer` (lines 90-156): the mutable fields `_time_step_index`,
  `_last_frame_index` and the loop-local `is_reset_pending` become a
  `PlayerState`; the host timeline queries made in one iteration of
  `run_loop` become a `CycleInput`; commands issued to the host become a
  `List HostCmd` output.
* `initialize_animation` / `insert_layer` / `main` (lines 159-230): the host
  primitives `open_stage` and `Sdf.Layer.FindOrOpen` become function
  parameters; the stage root layer's `subLayerPaths` becomes a `List String`.
-/

namespace AnimationPlayerSpec

/-- Model of class `SteadyRate` (animation-player.py lines 66-87).
`last_sleep_end` is the wall-clock time stored by `__init__` / `sleep`. -/
structure SteadyRate where
  rate_hz : ℚ
  dt : ℚ
  last_sleep_end : ℚ
  deriving DecidableEq

/-- `SteadyRate.__init__` (lines 77-80): `dt = 1 / rate_hz`, and the
initial `last_sleep_end` is the current wall-clock time `now`. -/
def SteadyRate.create (rate_hz : ℚ) (now : ℚ) : SteadyRate :=
  { rate_hz := rate_hz, dt := 1 / rate_hz, last_sleep_end := now }

/-- `SteadyRate.sleep` (lines 82-87).  `t1` is the value of the first
`time.time()` call (line 83), `t2` the value of the second one (line 87,
observed after the optional `time.sleep`).  Returns the duration passed to
`time.sleep` (0 when the `if` on line 85 is not taken) and the updated
state. -/
def SteadyRate.sleep (r : SteadyRate) (t1 t2 : ℚ) : ℚ × SteadyRate :=
  let work_elapse := t1 - r.last_sleep_end
  let sleep_time := r.dt - work_elapse
  let slept := if 0 < sleep_time then sleep_time else 0
  (slept, { r with last_sleep_end := t2 })

/-- Commands the player issues to the host runtime. -/
inductive HostCmd where
  | setEndTime (t : ℚ)
  | play (start_timecode end_timecode : ℤ)
  | enableExtension (name : String)
  | closeApp
  deriving DecidableEq

/-- `true` exactly on the `play` command issued by `timeline.play` in
`play_from_start` (line 155); used to count restart commands. -/
def HostCmd.isPlay : HostCmd → Bool
  | HostCmd.play _ _ => true
  | _ => false

/-- Number of `timeline.play` commands (i.e. restarts) in a command list. -/
def playCount (cs : List HostCmd) : ℕ :=
  cs.countP HostCmd.isPlay

/-- The mutable controller data of `AnimationPlayer`: `_time_step_index`
(line 108), `_last_frame_index` (line 109), and the `run_loop`-local
`is_reset_pending` flag (line 127). -/
structure PlayerState where
  time_step_index : ℤ
  last_frame_index : ℤ
  is_reset_pending : Bool
  deriving DecidableEq

/-- Host timeline observations made during one iteration of the `while`
loop of `run_loop`: `stopped` is `timeline.is_stopped()` on line 137,
`playing1` is `timeline.is_playing()` on line 139, and `playing2` is the
separate `timeline.is_playing()` query on line 147. -/
structure CycleInput where
  stopped : Bool
  playing1 : Bool
  playing2 : Bool
  deriving DecidableEq

/-- `AnimationPlayer.play_from_start` (lines 153-156): sets the timeline
end time to `last_frame_index / 60` (Python true division, modelled in ℚ),
plays from timecode 0 to `last_frame_index`, and resets
`_time_step_index` to 0. -/
def play_from_start (s : PlayerState) : PlayerState × List HostCmd :=
  ({ s with time_step_index := 0 },
   [HostCmd.setEndTime ((s.last_frame_index : ℚ) / 60),
    HostCmd.play 0 s.last_frame_index])

/-- The `last_frame_index` property setter (lines 116-118): stores the
given value with no validation. -/
def set_last_frame_index (s : PlayerState) (value : ℤ) : PlayerState :=
  { s with last_frame_index := value }

/-- `AnimationPlayer.__init__` (lines 95-110): `_time_step_index = 0`,
`_last_frame_index` taken from the configuration, and one
`enable_extension` request issued to the host.  No timeline command is
issued here.  (`is_reset_pending` is a `run_loop` local; its value in the
state is irrelevant until `run_loop` initializes it.) -/
def animationPlayerInit (config_last_frame_index : ℤ) :
    PlayerState × List HostCmd :=
  ({ time_step_index := 0,
     last_frame_index := config_last_frame_index,
     is_reset_pending := false },
   [HostCmd.enableExtension "omni.kit.livestream.webrtc"])

/-- One iteration of the `while` body of `run_loop` (lines 130-148), after
the side-effect-free `render` and `rate.sleep` calls:
line 137-138 set the pending flag on a stopped observation;
lines 139-141 restart and clear the flag on a playing observation while
pending; lines 144-145 restart when the frame counter has reached
`_last_frame_index`; lines 147-148 advance the counter while playing. -/
def cycle (s : PlayerState) (i : CycleInput) : PlayerState × List HostCmd :=
  let p1 : Bool := if i.stopped && !s.is_reset_pending then true else s.is_reset_pending
  let s1 : PlayerState := { s with is_reset_pending := p1 }
  let r1 : PlayerState × List HostCmd :=
    if i.playing1 && s1.is_reset_pending then
      let pf := play_from_start s1
      ({ pf.1 with is_reset_pending := false }, pf.2)
    else (s1, [])
  let r2 : PlayerState × List HostCmd :=
    if r1.1.last_frame_index ≤ r1.1.time_step_index then
      ((play_from_start r1.1).1, r1.2 ++ (play_from_start r1.1).2)
    else r1
  let s4 : PlayerState :=
    if i.playing2 then { r2.1 with time_step_index := r2.1.time_step_index + 1 }
    else r2.1
  (s4, r2.2)

/-- Modelled from the spec: the same cycle body, but with the loop-around
check (spec section 4.2, "evaluated every cycle and takes precedence
order-wise over the reset-pending check") evaluated BEFORE the
reset-pending restart.  Used only to compare against `cycle`, which follows
the source order (reset-pending restart first, lines 139-141 before
lines 144-145). -/
def cycleSpecOrdered (s : PlayerState) (i : CycleInput) :
    PlayerState × List HostCmd :=
  let p1 : Bool := if i.stopped && !s.is_reset_pending then true else s.is_reset_pending
  let s1 : PlayerState := { s with is_reset_pending := p1 }
  let r2 : PlayerState × List HostCmd :=
    if s1.last_frame_index ≤ s1.time_step_index then play_from_start s1
    else (s1, [])
  let r1 : PlayerState × List HostCmd :=
    if i.playing1 && r2.1.is_reset_pending then
      let pf := play_from_start r2.1
      ({ pf.1 with is_reset_pending := false }, r2.2 ++ pf.2)
    else r2
  let s4 : PlayerState :=
    if i.playing2 then { r1.1 with time_step_index := r1.1.time_step_index + 1 }
    else r1.1
  (s4, r1.2)

/-- Iterated `while` body of `run_loop`: one `CycleInput` per host
iteration during which `simulation_app.is_running()` was observed true. -/
def runCycles (s : PlayerState) : List CycleInput → PlayerState × List HostCmd
  | [] => (s, [])
  | i :: rest =>
    let r := cycle s i
    let r' := runCycles r.1 rest
    (r'.1, r.2 ++ r'.2)

/-- `AnimationPlayer.run_loop` (lines 120-151): sets `is_reset_pending`
to `False` (line 127), issues an initial `play_from_start` (line 128),
runs the `while` body once per host iteration, and finally commands
`simulation_app.close()` (line 151). -/
def run_loop (s : PlayerState) (inputs : List CycleInput) :
    PlayerState × List HostCmd :=
  let s0 : PlayerState := { s with is_reset_pending := false }
  let pf := play_from_start s0
  let r := runCycles pf.1 inputs
  (r.1, pf.2 ++ r.2 ++ [HostCmd.closeApp])

/-- `insert_layer` (animation-player.py lines 218-230): `fo` models
`Sdf.Layer.FindOrOpen` (returning the opened layer's identifier, or `none`
when the path cannot be resolved); `subLayerPaths` is the root layer's
sub-layer list.  A resolved layer is inserted at index 0; an unresolved one
is logged and skipped. -/
def insert_layer (fo : String → Option String) (subLayerPaths : List String)
    (layer_path : String) : List String :=
  match fo layer_path with
  | none => subLayerPaths
  | some sub => sub :: subLayerPaths

/-- The layer-composition loop of `initialize_animation` (lines 170-175):
`layer_paths.reverse()` followed by `insert_layer` on each element. -/
def composeLayers (fo : String → Option String) (layer_paths : List String)
    (root : List String) : List String :=
  layer_paths.reverse.foldl (insert_layer fo) root

/-- Overall application state touched by `initialize_animation`:
the controller state of the module-level `app`, the stage root layer's
sub-layer list, whether `sim_app.close()` has been commanded, and how many
`carb.log_error` calls happened. -/
structure AppState where
  player : PlayerState
  rootSubLayers : List String
  closed : Bool
  errorsLogged : ℕ
  deriving DecidableEq

/-- `initialize_animation` (lines 159-178).  `open_st` models the host's
`open_stage`.  On failure of the main scene (lines 163-168) an error is
logged, `sim_app.close()` is commanded and the function returns at once.
Otherwise the optional override layers are composed (lines 170-175, one
logged error per unresolvable layer), the terminal frame is stored through
the `last_frame_index` setter (line 177) and `play_from_start` is issued
(line 178). -/
def initialize_animation (open_st : String → Bool)
    (fo : String → Option String) (scene_name : String)
    (directory_path : String) (last_frame_index : ℤ)
    (layer_paths : Option (List String)) (st : AppState) :
    AppState × List HostCmd :=
  let main_scene_path := directory_path ++ scene_name
  if !(open_st main_scene_path) then
    ({ st with closed := true, errorsLogged := st.errorsLogged + 1 },
     [HostCmd.closeApp])
  else
    let layers :=
      match layer_paths with
      | none => st.rootSubLayers
      | some ps => composeLayers fo ps st.rootSubLayers
    let layerErrs :=
      match layer_paths with
      | none => 0
      | some ps => ps.countP fun p => (fo p).isNone
    let p1 := set_last_frame_index st.player last_frame_index
    let pf := play_from_start p1
    ({ st with player := pf.1, rootSubLayers := layers,
               errorsLogged := st.errorsLogged + layerErrs }, pf.2)

/-- `main` (lines 184-215), restricted to the startup path the claims are
about: the optional initial `initialize_animation` call (lines 206-212)
followed by `app.run_loop()` (line 215).  Modelled from the spec: after
`sim_app.close()` has been commanded, `simulation_app.is_running()`
reports false (host-runtime behaviour, external to this repository), so
the `while` body of `run_loop` gets no iterations — hence `run_loop`
receives `[]` when the app is closed.  Returns the final state, the
commands issued, and the number of `while`-body iterations executed. -/
def mainRun (open_st : String → Bool) (fo : String → Option String)
    (scene_name : String) (usd_directory : Option String)
    (config_last : ℤ) (layer_paths : Option (List String))
    (st0 : AppState) (inputs : List CycleInput) :
    AppState × List HostCmd × ℕ :=
  let r1 :=
    match usd_directory with
    | none => (st0, ([] : List HostCmd))
    | some d =>
        initialize_animation open_st fo scene_name d config_last layer_paths st0
  let hostInputs := if r1.1.closed then [] else inputs
  let r2 := run_loop r1.1.player hostInputs
  ({ r1.1 with player := r2.1 }, r1.2 ++ r2.2, hostInputs.length)

/-- C1: `SteadyRate.sleep` blocks for exactly
`max(0, period − elapsed since the previous sleep ended)` — hence never a
negative duration and no catch-up beyond zero — and stores the wall-clock
time observed after sleeping (`t2`) as the new `last_sleep_end` on every
invocation, whether or not it slept; the period itself is untouched. -/
theorem C1_rate_limiter_sleep (r : SteadyRate) (t1 t2 : ℚ) :
    (r.sleep t1 t2).1 = max 0 (r.dt - (t1 - r.last_sleep_end)) ∧
    0 ≤ (r.sleep t1 t2).1 ∧
    (r.sleep t1 t2).2.last_sleep_end = t2 ∧
    (r.sleep t1 t2).2.dt = r.dt ∧
    (r.sleep t1 t2).2.rate_hz = r.rate_hz := by
  refine ⟨?_, ?_, rfl, rfl, rfl⟩
  · show (if 0 < r.dt - (t1 - r.last_sleep_end) then r.dt - (t1 - r.last_sleep_end) else 0)
        = max 0 (r.dt - (t1 - r.last_sleep_end))
    split_ifs with h
    · exact (max_eq_right h.le).symm
    · push_neg at h
      exact (max_eq_left h).symm
  · show 0 ≤ (if 0 < r.dt - (t1 - r.last_sleep_end) then r.dt - (t1 - r.last_sleep_end) else 0)
    split_ifs with h
    · exact h.le
    · exact le_refl 0

/-- C2 counterexample: in the source, the reset-pending restart
(lines 139-141) runs before the loop-around check (lines 144-145), not
after it as the claim states.  At frame counter 5 = last frame 5 with a
pending reset and a playing host, the source issues one restart, while the
spec-ordered variant would issue two. -/
theorem C2_counterexample :
    playCount (cycle ⟨5, 5, true⟩ ⟨false, true, false⟩).2 = 1 ∧
    playCount (cycleSpecOrdered ⟨5, 5, true⟩ ⟨false, true, false⟩).2 = 2 ∧
    playCount (cycle ⟨5, 5, true⟩ ⟨false, true, false⟩).2 ≠
      playCount (cycleSpecOrdered ⟨5, 5, true⟩ ⟨false, true, false⟩).2 := by
  decide

/-- C2 amended: the reset-pending check is evaluated before the
loop-around check (the reverse of the claimed order); both checks are
evaluated every cycle and both may fire, and the two restarts are
idempotent — the end-of-cycle controller state is identical under either
evaluation order, only the number of emitted restart commands can
differ. -/
theorem C2_amended_order_idempotent (s : PlayerState) (i : CycleInput) :
    (cycle s i).1 = (cycleSpecOrdered s i).1 := by
  rcases s with ⟨idx, last, pending⟩
  rcases i with ⟨st, p1, p2⟩
  simp only [cycle, cycleSpecOrdered, play_from_start]
  split_ifs <;> simp_all

/-- C6: `play_from_start` sets the host end-time to
`last_frame_index / 60` (true division, 60 Hz timecode base), commands a
play from timecode 0 to timecode `last_frame_index`, and resets the frame
counter to 0, for every non-negative `last_frame_index`. -/
theorem C6_play_from_start (s : PlayerState)
    (h : 0 ≤ s.last_frame_index) :
    (play_from_start s).1.time_step_index = 0 ∧
    (play_from_start s).1.last_frame_index = s.last_frame_index ∧
    (play_from_start s).2 =
      [HostCmd.setEndTime ((s.last_frame_index : ℚ) / 60),
       HostCmd.play 0 s.last_frame_index] :=
  ⟨rfl, rfl, rfl⟩

/-- C6 witness at `last_frame_index = 120`. -/
theorem C6_witness :
    0 ≤ (⟨7, 120, false⟩ : PlayerState).last_frame_index ∧
    ((play_from_start ⟨7, 120, false⟩).1.time_step_index = 0 ∧
     (play_from_start ⟨7, 120, false⟩).1.last_frame_index =
       (⟨7, 120, false⟩ : PlayerState).last_frame_index ∧
     (play_from_start ⟨7, 120, false⟩).2 =
       [HostCmd.setEndTime (((⟨7, 120, false⟩ : PlayerState).last_frame_index : ℚ) / 60),
        HostCmd.play 0 (⟨7, 120, false⟩ : PlayerState).last_frame_index]) :=
  ⟨by decide, C6_play_from_start ⟨7, 120, false⟩ (by decide)⟩

/-- C9 counterexample: `AnimationPlayer.__init__` issues only the
extension-enable request and no `play` command at all — the immediate
"play from start" the claim places at construction does not happen
there. -/
theorem C9_counterexample :
    (animationPlayerInit 100).2 =
      [HostCmd.enableExtension "omni.kit.livestream.webrtc"] ∧
    playCount (animationPlayerInit 100).2 = 0 := by
  constructor
  · rfl
  · rfl

/-- C9 amended: construction issues no play command; the initial
"play from start" is instead issued at the top of `run_loop`
(line 128), before any cycle of the `while` body — its two commands are
the first two the loop emits. -/
theorem C9_amended_initial_play (c : ℤ) (s : PlayerState)
    (inputs : List CycleInput) :
    playCount (animationPlayerInit c).2 = 0 ∧
    (run_loop s inputs).2.take 2 =
      [HostCmd.setEndTime ((s.last_frame_index : ℚ) / 60),
       HostCmd.play 0 s.last_frame_index] := by
  constructor
  · rfl
  · simp [run_loop, play_from_start, List.take]

/-- C10 counterexample: the `last_frame_index` setter performs no
validation — assigning `-1` stores `-1`, a negative terminal frame. -/
theorem C10_counterexample :
    (set_last_frame_index ⟨0, 100, false⟩ (-1)).last_frame_index = -1 ∧
    ¬ 0 ≤ (set_last_frame_index ⟨0, 100, false⟩ (-1)).last_frame_index := by
  decide

/-- C10 amended: both the initial configuration read and the property
setter store the supplied value verbatim, so the stored terminal frame is
non-negative exactly when every supplied value is non-negative; the code
itself enforces nothing. -/
theorem C10_amended_setter (s : PlayerState) (v c : ℤ)
    (hv : 0 ≤ v) (hc : 0 ≤ c) :
    (set_last_frame_index s v).last_frame_index = v ∧
    0 ≤ (set_last_frame_index s v).last_frame_index ∧
    (animationPlayerInit c).1.last_frame_index = c ∧
    0 ≤ (animationPlayerInit c).1.last_frame_index :=
  ⟨rfl, hv, rfl, hc⟩

/-- C10 witness at setter input 7 and configuration value 100. -/
theorem C10_witness :
    (0 ≤ (7 : ℤ) ∧ 0 ≤ (100 : ℤ)) ∧
    ((set_last_frame_index ⟨0, 100, false⟩ 7).last_frame_index = 7 ∧
     0 ≤ (set_last_frame_index ⟨0, 100, false⟩ 7).last_frame_index ∧
     (animationPlayerInit 100).1.last_frame_index = 100 ∧
     0 ≤ (animationPlayerInit 100).1.last_frame_index) :=
  ⟨by decide, C10_amended_setter ⟨0, 100, false⟩ 7 100 (by decide) (by decide)⟩

/-- C3 counterexample: with `last_frame_index = 0` (a non-negative
configuration value), a cycle that starts with `frame_index ≥
last_frame_index`, a pending reset and a playing host issues TWO restart
commands, not exactly one: the reset-pending restart fires first, and the
loop-around check then still sees `0 ≥ last_frame_index`. -/
theorem C3_counterexample :
    (⟨0, 0, true⟩ : PlayerState).last_frame_index ≤
      (⟨0, 0, true⟩ : PlayerState).time_step_index ∧
    playCount (cycle ⟨0, 0, true⟩ ⟨false, true, false⟩).2 = 2 := by
  decide

/-- C3 amended: on a cycle starting with `frame_index ≥ last_frame_index`,
the controller issues a restart exactly once — regardless of the
reset-pending state — provided `last_frame_index` is positive; the frame
counter is brought back to 0 (at most 1 after the trailing increment).
(When `last_frame_index ≤ 0` and the reset-pending transition fires in the
same cycle, two restarts are issued instead.) -/
theorem C3_amended_single_restart (s : PlayerState) (i : CycleInput)
    (hpos : 0 < s.last_frame_index)
    (hge : s.last_frame_index ≤ s.time_step_index) :
    playCount (cycle s i).2 = 1 ∧ (cycle s i).1.time_step_index ≤ 1 := by
  rcases s with ⟨idx, last, pending⟩
  rcases i with ⟨st, p1, p2⟩
  simp only at hpos hge
  simp only [cycle, play_from_start]
  split_ifs <;>
    simp_all [playCount, HostCmd.isPlay, List.countP_cons, List.countP_nil] <;>
    omega

/-- C3 witness: frame counter 5 at terminal frame 5 with no pending
reset. -/
theorem C3_witness :
    (0 < (⟨5, 5, false⟩ : PlayerState).last_frame_index ∧
     (⟨5, 5, false⟩ : PlayerState).last_frame_index ≤
       (⟨5, 5, false⟩ : PlayerState).time_step_index) ∧
    (playCount (cycle ⟨5, 5, false⟩ ⟨false, false, false⟩).2 = 1 ∧
     (cycle ⟨5, 5, false⟩ ⟨false, false, false⟩).1.time_step_index ≤ 1) :=
  ⟨by decide, C3_amended_single_restart ⟨5, 5, false⟩ ⟨false, false, false⟩
      (by decide) (by decide)⟩

/-- C5: whenever a cycle starts with the frame counter at or past the
terminal frame, at least one restart is issued during that very cycle and
the counter leaves the cycle at 0 or 1 — the counter never stays past the
terminal frame for more than the one cycle in which it got there. -/
theorem C5_loop_around_invariant (s : PlayerState) (i : CycleInput)
    (hge : s.last_frame_index ≤ s.time_step_index) :
    1 ≤ playCount (cycle s i).2 ∧ (cycle s i).1.time_step_index ≤ 1 := by
  rcases s with ⟨idx, last, pending⟩
  rcases i with ⟨st, p1, p2⟩
  simp only at hge
  simp only [cycle, play_from_start]
  split_ifs <;>
    simp_all [playCount, HostCmd.isPlay, List.countP_cons, List.countP_nil]

/-- C5 witness: frame counter 3 past terminal frame 2. -/
theorem C5_witness :
    (⟨3, 2, false⟩ : PlayerState).last_frame_index ≤
      (⟨3, 2, false⟩ : PlayerState).time_step_index ∧
    (1 ≤ playCount (cycle ⟨3, 2, false⟩ ⟨true, false, true⟩).2 ∧
     (cycle ⟨3, 2, false⟩ ⟨true, false, true⟩).1.time_step_index ≤ 1) :=
  ⟨by decide, C5_loop_around_invariant ⟨3, 2, false⟩ ⟨true, false, true⟩ (by decide)⟩

/-- Unfolding of `composeLayers` on a cons: the reversed traversal makes
the head of the input list the LAST layer inserted at index 0. -/
lemma composeLayers_cons (fo : String → Option String) (p : String)
    (ps : List String) (root : List String) :
    composeLayers fo (p :: ps) root =
      insert_layer fo (composeLayers fo ps root) p := by
  simp [composeLayers, List.foldl_append]

/-- `composeLayers` prepends the resolvable input layers, in input order,
to the existing sub-layer list; unresolvable ones are skipped. -/
lemma composeLayers_filterMap (fo : String → Option String)
    (ps : List String) : ∀ root : List String,
    composeLayers fo ps root = ps.filterMap fo ++ root := by
  induction ps with
  | nil => intro root; simp [composeLayers]
  | cons p t ih =>
    intro root
    rw [composeLayers_cons, ih]
    cases h : fo p <;> simp [insert_layer, h]

/-- When every path resolves to itself, `filterMap` is the identity. -/
lemma filterMap_id_of_resolved (fo : String → Option String) :
    ∀ ps : List String, (∀ p ∈ ps, fo p = some p) → ps.filterMap fo = ps := by
  intro ps
  induction ps with
  | nil => intro _; simp
  | cons p t ih =>
    intro h
    simp [h p (List.mem_cons_self p t), ih fun q hq => h q (List.mem_cons_of_mem p hq)]

/-- C7: when the main scene opens and every override layer resolves,
`initialize_animation` composes the supplied layers onto the stage root so
that the resulting sub-layer list (index 0 = highest priority) is exactly
the input list followed by the pre-existing sub-layers: input order equals
priority order, highest first. -/
theorem C7_layer_priority_order (open_st : String → Bool)
    (fo : String → Option String) (scene_name d : String) (last : ℤ)
    (ps : List String) (st : AppState)
    (hopen : open_st (d ++ scene_name) = true)
    (hres : ∀ p ∈ ps, fo p = some p) :
    (initialize_animation open_st fo scene_name d last (some ps) st).1.rootSubLayers
      = ps ++ st.rootSubLayers := by
  simp only [initialize_animation, hopen, Bool.not_true, Bool.false_eq_true,
    if_false]
  rw [composeLayers_filterMap, filterMap_id_of_resolved fo ps hres]

/-- C7 witness: input list `["a", "b", "c"]` over an empty root yields
priority order `a, b, c`. -/
theorem C7_witness :
    ((fun (_ : String) => true) ("/scenes/" ++ "scene.usd") = true) ∧
    (initialize_animation (fun _ => true) (fun p => some p) "scene.usd"
        "/scenes/" 50 (some ["a", "b", "c"])
        ⟨⟨0, 100, false⟩, [], false, 0⟩).1.rootSubLayers
      = ["a", "b", "c"] ++ [] :=
  ⟨rfl, C7_layer_priority_order (fun _ => true) (fun p => some p) "scene.usd"
      "/scenes/" 50 ["a", "b", "c"] ⟨⟨0, 100, false⟩, [], false, 0⟩ rfl
      (fun p _ => rfl)⟩

/-- Quiet cycle: nothing pending, host not observed stopped, counter below
the terminal frame — no command is issued, only the counter may advance. -/
lemma cycle_quiet (s : PlayerState) (i : CycleInput)
    (hp : s.is_reset_pending = false) (hs : i.stopped = false)
    (hidx : s.time_step_index < s.last_frame_index) :
    cycle s i =
      ({ s with time_step_index :=
          if i.playing2 then s.time_step_index + 1 else s.time_step_index },
       []) := by
  rcases s with ⟨idx, last, pending⟩
  rcases i with ⟨st, p1, p2⟩
  simp only at hp hs hidx
  cases p2 <;>
    simp [cycle, play_from_start, hp, hs, not_le.mpr hidx]

/-- Stop observation: the pending flag is raised; with the host not yet
playing and the counter below the terminal frame, no command is issued. -/
lemma cycle_stop_observe (s : PlayerState) (i : CycleInput)
    (hp : s.is_reset_pending = false) (hs : i.stopped = true)
    (hp1 : i.playing1 = false)
    (hidx : s.time_step_index < s.last_frame_index) :
    cycle s i =
      ({ s with is_reset_pending := true,
                time_step_index :=
          if i.playing2 then s.time_step_index + 1 else s.time_step_index },
       []) := by
  rcases s with ⟨idx, last, pending⟩
  rcases i with ⟨st, p1, p2⟩
  simp only at hp hs hp1 hidx
  cases p2 <;>
    simp [cycle, play_from_start, hp, hs, hp1, not_le.mpr hidx]

/-- Waiting cycle: a reset is pending but the host is not observed
playing; the flag stays raised and no command is issued. -/
lemma cycle_wait (s : PlayerState) (i : CycleInput)
    (hp : s.is_reset_pending = true) (hp1 : i.playing1 = false)
    (hidx : s.time_step_index < s.last_frame_index) :
    cycle s i =
      ({ s with is_reset_pending := true,
                time_step_index :=
          if i.playing2 then s.time_step_index + 1 else s.time_step_index },
       []) := by
  rcases s with ⟨idx, last, pending⟩
  rcases i with ⟨st, p1, p2⟩
  simp only at hp hp1 hidx
  cases p2 <;>
    simp [cycle, play_from_start, hp, hp1, not_le.mpr hidx]

/-- Firing cycle: a reset is pending and the host is observed playing —
one `play_from_start` is issued, the flag is cleared and the counter is
reset (positive terminal frame keeps the loop-around check from firing a
second time). -/
lemma cycle_fire (s : PlayerState) (i : CycleInput)
    (hp : s.is_reset_pending = true) (hp1 : i.playing1 = true)
    (hlast : 0 < s.last_frame_index) :
    cycle s i =
      ({ s with is_reset_pending := false,
                time_step_index := if i.playing2 then 1 else 0 },
       [HostCmd.setEndTime ((s.last_frame_index : ℚ) / 60),
        HostCmd.play 0 s.last_frame_index]) := by
  rcases s with ⟨idx, last, pending⟩
  rcases i with ⟨st, p1, p2⟩
  simp only at hp hp1 hlast
  cases p2 <;>
    simp [cycle, play_from_start, hp, hp1, not_le.mpr hlast]

/-- Unfolding of `runCycles` on the empty trace. -/
lemma runCycles_nil (s : PlayerState) : runCycles s [] = (s, []) := rfl

/-- Unfolding of `runCycles` on a cons. -/
lemma runCycles_cons (s : PlayerState) (i : CycleInput)
    (t : List CycleInput) :
    runCycles s (i :: t) =
      ((runCycles (cycle s i).1 t).1,
       (cycle s i).2 ++ (runCycles (cycle s i).1 t).2) := rfl

/-- `runCycles` distributes over list append. -/
lemma runCycles_append (a b : List CycleInput) : ∀ s : PlayerState,
    runCycles s (a ++ b) =
      ((runCycles (runCycles s a).1 b).1,
       (runCycles s a).2 ++ (runCycles (runCycles s a).1 b).2) := by
  induction a with
  | nil => intro s; simp [runCycles]
  | cons i t ih => intro s; simp [runCycles, ih (cycle s i).1]

/-- A run of quiet cycles (no stop observed, pending flag down, counter
staying below the terminal frame) issues no command, keeps the flag down,
and advances the counter by at most one per cycle. -/
lemma runCycles_quiet (l : List CycleInput) : ∀ s : PlayerState,
    s.is_reset_pending = false → (∀ i ∈ l, i.stopped = false) →
    s.time_step_index + l.length ≤ s.last_frame_index →
    (runCycles s l).2 = [] ∧
    (runCycles s l).1.is_reset_pending = false ∧
    (runCycles s l).1.time_step_index ≤ s.time_step_index + l.length ∧
    (runCycles s l).1.last_frame_index = s.last_frame_index := by
  induction l with
  | nil => intro s hp _ _; exact ⟨rfl, hp, by simp [runCycles], rfl⟩
  | cons i t ih =>
    intro s hp hl hb
    simp only [List.length_cons] at hb
    have hidx : s.time_step_index < s.last_frame_index := by
      have hn : (0 : ℤ) ≤ (t.length : ℤ) := Int.ofNat_nonneg t.length
      push_cast at hb
      omega
    have hstep := cycle_quiet s i hp (hl i (List.mem_cons_self i t)) hidx
    have hstep1 : (cycle s i).1 =
        { s with time_step_index :=
            if i.playing2 then s.time_step_index + 1 else s.time_step_index } := by
      rw [hstep]
    have hmono : (cycle s i).1.time_step_index ≤ s.time_step_index + 1 := by
      rw [hstep1]
      split_ifs <;> simp
    obtain ⟨ih2, ihp, ihi, ihl⟩ := ih (cycle s i).1
      (by simp [hstep1, hp]) (fun j hj => hl j (List.mem_cons_of_mem i hj))
      (by
        have hlast : (cycle s i).1.last_frame_index = s.last_frame_index := by
          rw [hstep1]
        rw [hlast]
        omega)
    refine ⟨?_, ihp, ?_, ?_⟩
    · show (cycle s i).2 ++ (runCycles (cycle s i).1 t).2 = []
      rw [ih2, hstep]
      simp
    · show (runCycles (cycle s i).1 t).1.time_step_index ≤
        s.time_step_index + (t.length + 1 : ℕ)
      push_cast
      omega
    · show (runCycles (cycle s i).1 t).1.last_frame_index = s.last_frame_index
      rw [ihl, hstep1]

/-- A run of waiting cycles (reset pending, host never observed playing,
counter staying below the terminal frame) issues no command and keeps the
flag raised. -/
lemma runCycles_wait (l : List CycleInput) : ∀ s : PlayerState,
    s.is_reset_pending = true → (∀ i ∈ l, i.playing1 = false) →
    s.time_step_index + l.length ≤ s.last_frame_index →
    (runCycles s l).2 = [] ∧
    (runCycles s l).1.is_reset_pending = true ∧
    (runCycles s l).1.time_step_index ≤ s.time_step_index + l.length ∧
    (runCycles s l).1.last_frame_index = s.last_frame_index := by
  induction l with
  | nil => intro s hp _ _; exact ⟨rfl, hp, by simp [runCycles], rfl⟩
  | cons i t ih =>
    intro s hp hl hb
    simp only [List.length_cons] at hb
    have hidx : s.time_step_index < s.last_frame_index := by
      have hn : (0 : ℤ) ≤ (t.length : ℤ) := Int.ofNat_nonneg t.length
      push_cast at hb
      omega
    have hstep := cycle_wait s i hp (hl i (List.mem_cons_self i t)) hidx
    have hstep1 : (cycle s i).1 =
        { s with is_reset_pending := true,
                 time_step_index :=
            if i.playing2 then s.time_step_index + 1 else s.time_step_index } := by
      rw [hstep]
    have hmono : (cycle s i).1.time_step_index ≤ s.time_step_index + 1 := by
      rw [hstep1]
      split_ifs <;> simp
    obtain ⟨ih2, ihp, ihi, ihl⟩ := ih (cycle s i).1
      (by rw [hstep1]) (fun j hj => hl j (List.mem_cons_of_mem i hj))
      (by
        have hlast : (cycle s i).1.last_frame_index = s.last_frame_index := by
          rw [hstep1]
        rw [hlast]
        omega)
    refine ⟨?_, ihp, ?_, ?_⟩
    · show (cycle s i).2 ++ (runCycles (cycle s i).1 t).2 = []
      rw [ih2, hstep]
      simp
    · show (runCycles (cycle s i).1 t).1.time_step_index ≤
        s.time_step_index + (t.length + 1 : ℕ)
      push_cast
      omega
    · show (runCycles (cycle s i).1 t).1.last_frame_index = s.last_frame_index
      rw [ihl, hstep1]

/-- C4: over any stretch of the run loop that starts with no pending
reset and a frame counter that cannot reach the terminal frame (bounded by
the stretch length), a stop observation followed — after any number of
not-yet-playing cycles — by a playing observation produces exactly one
restart command in total, and the pending flag ends cleared. -/
theorem C4_stop_then_play_once (s : PlayerState) (pre mid : List CycleInput)
    (stopC playC : CycleInput)
    (hpend : s.is_reset_pending = false)
    (h0 : 0 ≤ s.time_step_index)
    (hpre : ∀ i ∈ pre, i.stopped = false)
    (hstop : stopC.stopped = true) (hstopPlay : stopC.playing1 = false)
    (hmid : ∀ i ∈ mid, i.playing1 = false)
    (hplay : playC.playing1 = true)
    (hb : s.time_step_index + pre.length + mid.length + 1 ≤ s.last_frame_index) :
    playCount (runCycles s (pre ++ stopC :: (mid ++ [playC]))).2 = 1 ∧
    (runCycles s (pre ++ stopC :: (mid ++ [playC]))).1.is_reset_pending
      = false := by
  obtain ⟨e2, ep, ei, el⟩ := runCycles_quiet pre s hpend hpre
    (by omega)
  have hidx1 : (runCycles s pre).1.time_step_index <
      (runCycles s pre).1.last_frame_index := by
    rw [el]
    omega
  have hstop1 := cycle_stop_observe (runCycles s pre).1 stopC ep hstop
    hstopPlay hidx1
  have c1 : (cycle (runCycles s pre).1 stopC).2 = [] := by rw [hstop1]
  have a_p : (cycle (runCycles s pre).1 stopC).1.is_reset_pending = true := by
    rw [hstop1]
  have a_i : (cycle (runCycles s pre).1 stopC).1.time_step_index ≤
      (runCycles s pre).1.time_step_index + 1 := by
    rw [hstop1]
    dsimp only
    split_ifs <;> omega
  have a_l : (cycle (runCycles s pre).1 stopC).1.last_frame_index =
      (runCycles s pre).1.last_frame_index := by
    rw [hstop1]
  obtain ⟨f2, fp, fi, fl⟩ :=
    runCycles_wait mid (cycle (runCycles s pre).1 stopC).1 a_p hmid
      (by rw [a_l, el]; omega)
  have hs3pos : 0 <
      (runCycles (cycle (runCycles s pre).1 stopC).1 mid).1.last_frame_index := by
    rw [fl, a_l, el]
    omega
  have hfire := cycle_fire
    (runCycles (cycle (runCycles s pre).1 stopC).1 mid).1 playC fp hplay hs3pos
  have cfire : (cycle (runCycles (cycle (runCycles s pre).1 stopC).1 mid).1
      playC).2 =
      [HostCmd.setEndTime
        (((runCycles (cycle (runCycles s pre).1 stopC).1
            mid).1.last_frame_index : ℚ) / 60),
       HostCmd.play 0
        (runCycles (cycle (runCycles s pre).1 stopC).1
          mid).1.last_frame_index] := by
    rw [hfire]
  have pfire : (cycle (runCycles (cycle (runCycles s pre).1 stopC).1 mid).1
      playC).1.is_reset_pending = false := by
    rw [hfire]
  simp only [runCycles_append, runCycles_cons, runCycles_nil]
  rw [e2, c1, f2, cfire, pfire]
  simp [playCount, HostCmd.isPlay]

/-- C4 witness: an empty prefix, one stop observation, no waiting cycle,
then a playing observation, with terminal frame 10. -/
theorem C4_witness :
    playCount (runCycles ⟨0, 10, false⟩
      ([] ++ (⟨true, false, false⟩ : CycleInput) ::
        ([] ++ [(⟨false, true, false⟩ : CycleInput)]))).2 = 1 ∧
    (runCycles ⟨0, 10, false⟩
      ([] ++ (⟨true, false, false⟩ : CycleInput) ::
        ([] ++ [(⟨false, true, false⟩ : CycleInput)]))).1.is_reset_pending
      = false :=
  C4_stop_then_play_once ⟨0, 10, false⟩ [] [] ⟨true, false, false⟩
    ⟨false, true, false⟩ rfl (by decide) (by simp) rfl rfl (by simp) rfl
    (by simp)

/-- C8: when the main scene path fails to open during scene
(re)initialization at startup, an error is logged, the host application is
commanded to close, the terminal frame and stage layers are untouched (no
retry, no further work), and the run loop executes zero cycles. -/
theorem C8_fatal_scene_open (open_st : String → Bool)
    (fo : String → Option String) (scene_name d : String) (cl : ℤ)
    (lp : Option (List String)) (st0 : AppState) (inputs : List CycleInput)
    (hopen : open_st (d ++ scene_name) = false) :
    (mainRun open_st fo scene_name (some d) cl lp st0 inputs).2.2 = 0 ∧
    (mainRun open_st fo scene_name (some d) cl lp st0 inputs).1.closed
      = true ∧
    (mainRun open_st fo scene_name (some d) cl lp st0 inputs).1.errorsLogged
      = st0.errorsLogged + 1 ∧
    (mainRun open_st fo scene_name (some d) cl lp st0 inputs).1.rootSubLayers
      = st0.rootSubLayers ∧
    (mainRun open_st fo scene_name (some d) cl lp st0
        inputs).1.player.last_frame_index = st0.player.last_frame_index ∧
    HostCmd.closeApp ∈
      (mainRun open_st fo scene_name (some d) cl lp st0 inputs).2.1 := by
  simp [mainRun, initialize_animation, hopen, run_loop, runCycles,
    play_from_start]

/-- C8 witness: a host whose `open_stage` always fails. -/
theorem C8_witness :
    ((fun (_ : String) => false) ("/scenes/" ++ "scene.usd") = false) ∧
    ((mainRun (fun _ => false) (fun _ => none) "scene.usd" (some "/scenes/")
        50 none ⟨⟨0, 100, false⟩, [], false, 0⟩ []).2.2 = 0 ∧
     (mainRun (fun _ => false) (fun _ => none) "scene.usd" (some "/scenes/")
        50 none ⟨⟨0, 100, false⟩, [], false, 0⟩ []).1.closed = true ∧
     (mainRun (fun _ => false) (fun _ => none) "scene.usd" (some "/scenes/")
        50 none ⟨⟨0, 100, false⟩, [], false, 0⟩ []).1.errorsLogged =
       (⟨⟨0, 100, false⟩, [], false, 0⟩ : AppState).errorsLogged + 1 ∧
     (mainRun (fun _ => false) (fun _ => none) "scene.usd" (some "/scenes/")
        50 none ⟨⟨0, 100, false⟩, [], false, 0⟩ []).1.rootSubLayers =
       (⟨⟨0, 100, false⟩, [], false, 0⟩ : AppState).rootSubLayers ∧
     (mainRun (fun _ => false) (fun _ => none) "scene.usd" (some "/scenes/")
        50 none ⟨⟨0, 100, false⟩, [], false, 0⟩
        []).1.player.last_frame_index =
       (⟨⟨0, 100, false⟩, [], false, 0⟩ : AppState).player.last_frame_index ∧
     HostCmd.closeApp ∈
       (mainRun (fun _ => false) (fun _ => none) "scene.usd" (some "/scenes/")
          50 none ⟨⟨0, 100, false⟩, [], false, 0⟩ []).2.1) :=
  ⟨rfl, C8_fatal_scene_open (fun _ => false) (fun _ => none) "scene.usd"
      "/scenes/" 50 none ⟨⟨0, 100, false⟩, [], false, 0⟩ [] rfl⟩

end AnimationPlayerSpec
